import Mathlib

/-!
Verification of the knex `node-sqlite` dialect and the internal query
executioner against their specification.

The development shallowly embeds:
  - `src/lib/execution/internal/query-executioner.js`
    (`formatQuery`, `enrichQueryObject`, `executeQuery`);
  - `src/lib/dialects/node-sqlite/index.js`
    (`_query`, `_formatBindings`, `_postProcessResponse`, `_stream`,
    `processResponse`).

JavaScript dynamic values that flow through these functions are modelled by
the inductive `Value`; driver responses by `DriverResp`; the node:sqlite
driver itself (an external collaborator: `prepare(...).all/get/run`) by a
record of functions returning `Except KError _`, matching the synchronous
throw behaviour of the native driver.

All character-level string manipulation is implemented by structural
recursion on `List Char` so that every definition evaluates by kernel
reduction on concrete inputs.
-/

namespace Knex

/-- JavaScript values as they appear in bindings, rows and driver results.
`date epochMs` models a `Date` object whose `valueOf()` is `epochMs`. -/
inductive Value where
  | null : Value
  | undefined : Value
  | int : Int → Value
  | str : String → Value
  | bool : Bool → Value
  | date : Int → Value
deriving DecidableEq, Repr

/-- A driver row: a JavaScript object, modelled as an association list of
property names to values. -/
abbrev Row := List (String × Value)

/-- Property lookup `row[key]`: a missing property reads as `undefined`. -/
def rowProp (r : Row) (k : String) : Value :=
  match r.find? (fun p => p.1 = k) with
  | some p => p.2
  | none => .undefined

/-- The object returned by `StatementSync.run` in node:sqlite:
`{ lastInsertRowid, changes }`. -/
structure RunResult where
  lastInsertRowid : Int
  changes : Int
deriving DecidableEq, Repr

/-- A driver response: either a row list (from `all`/wrapped `get`) or the
`run` result object. -/
inductive DriverResp where
  | rows : List Row → DriverResp
  | result : RunResult → DriverResp
deriving DecidableEq, Repr

/-- The `method` tag a compiled query carries. -/
inductive Method where
  | select | first | pluck | columnInfo | insert | update | del | counter | raw
deriving DecidableEq, Repr

/-- A JavaScript `Error` as observed by this code: its `message` and an
optional `code` property. -/
structure KError where
  message : String
  code : Option String
deriving DecidableEq, Repr

/-- The `context` object `_query` attaches to the query object
(`{ lastID, changes }`); `none` models an absent property. `lastID` is a
`Value` because the RETURNING fallback path copies `firstRow.rowid`,
whatever value that is. -/
structure Ctx where
  lastID : Option Value
  changes : Option Int
deriving DecidableEq, Repr

/-- The empty context `{}`. -/
def Ctx.empty : Ctx := { lastID := none, changes := none }

/-- The post-processed result `processResponse` yields: a row set, a single
row, `undefined`, a plain array of values, a number, or the driver result
object passed through. `tyError` marks a spot where the JavaScript would
throw a `TypeError` (calling `.map` on a non-array). -/
inductive Processed where
  | rows : List Row → Processed
  | row : Row → Processed
  | undefined : Processed
  | values : List Value → Processed
  | num : Int → Processed
  | result : RunResult → Processed
  | tyError : Processed
deriving DecidableEq, Repr

/-- Inject a driver response into `Processed` unchanged. -/
def Processed.ofDriver : DriverResp → Processed
  | .rows rs => .rows rs
  | .result r => .result r

/-- The compiled query object flowing through the executioner and the
dialect. `bindings`, `method`, `returning`, `pluck`, `response` and
`output` model possibly-absent JavaScript properties with `Option`. -/
structure QueryObj where
  sql : String
  bindings : Option (List Value)
  method : Option Method
  returning : Option (List String)
  pluck : Option String
  response : Option DriverResp
  context : Ctx
  output : Option (Option DriverResp → Processed)

/-- The node:sqlite driver as used by `_query`: `prepare(sql)` followed by
`all`, `get` or `run` on the formatted bindings; any synchronous throw
(from `prepare` or the statement call) is an `Except.error`. -/
structure Driver where
  all : String → List Value → Except KError (List Row)
  get : String → List Value → Except KError (Option Row)
  run : String → List Value → Except KError RunResult

/-! ### Character-level string operations

These mirror the JavaScript string primitives the source uses
(`String.prototype.includes`, one-shot `String.prototype.replace`,
`trim`, `toLowerCase`, `startsWith`), implemented by structural recursion
on `List Char`. -/

/-- Whether `cs` contains `pat` as a contiguous substring (JS `includes`). -/
def containsSub (cs pat : List Char) : Bool :=
  match cs with
  | [] => pat.isEmpty
  | _ :: rest => pat.isPrefixOf cs || containsSub rest pat

/-- Replace the leftmost occurrence of `pat` in `cs` by `rep`, as JS
`String.prototype.replace` does with a string pattern: at most one
replacement, at the first match position. -/
def replaceFirstChars (cs pat rep : List Char) : List Char :=
  match cs with
  | [] => if pat.isEmpty then rep else []
  | c :: rest =>
    if pat.isPrefixOf cs then rep ++ cs.drop pat.length
    else c :: replaceFirstChars rest pat rep

/-- JS `s.includes(pat)`. -/
def jsIncludes (s pat : String) : Bool := containsSub s.data pat.data

/-- JS `s.replace(pat, rep)` with a plain-string pattern. -/
def jsReplace (s pat rep : String) : String :=
  ⟨replaceFirstChars s.data pat.data rep.data⟩

/-- JS `s.trim()`: strip leading and trailing whitespace. -/
def trimChars (cs : List Char) : List Char :=
  ((cs.dropWhile Char.isWhitespace).reverse.dropWhile Char.isWhitespace).reverse

/-- JS `s.trim().toLowerCase()` (ASCII case folding). -/
def trimLower (s : String) : List Char :=
  (trimChars s.data).map Char.toLower

/-! ### node-sqlite dialect (`src/lib/dialects/node-sqlite/index.js`) -/

/-- Source `_formatBindings` (lines 148–165): coerce each binding to the driver's
native form — `Date` → `valueOf()` epoch number, boolean → `Number(b)` —
and an absent binding list to `[]`. -/
def _formatBindings (bindings : Option (List Value)) : List Value :=
  match bindings with
  | none => []
  | some bs =>
    bs.map (fun binding =>
      match binding with
      | .date ms => .int ms
      | .bool b => .int (if b then 1 else 0)
      | v => v)

/-- The row-list part of `_postProcessResponse`: rebuild each row object
property by property (a shallow copy). -/
def postRows (rs : List Row) : List Row :=
  rs.map (fun row => row.map (fun p => (p.1, p.2)))

/-- Source `_postProcessResponse` (lines 167–181): on an array response, rebuild
each row object property by property (a shallow copy); any other response
is returned unchanged. -/
def _postProcessResponse (response : DriverResp) : DriverResp :=
  match response with
  | .rows rs => .rows (postRows rs)
  | r => r

/-- The branch condition of `_query` (lines 65–69): the statement is
executed as row-returning (prepare + `all`/`get`) when the method is
`select`, `first`, `pluck` or `columnInfo`, or when the method is `raw` or
absent and the trimmed lower-cased SQL starts with `select` or `pragma`. -/
def isRowReturningBranch (obj : QueryObj) : Bool :=
  obj.method == some .select || obj.method == some .first ||
  obj.method == some .pluck || obj.method == some .columnInfo ||
  ((obj.method == some .raw || obj.method == none) &&
    ("select".data.isPrefixOf (trimLower obj.sql) ||
     "pragma".data.isPrefixOf (trimLower obj.sql)))

/-- The error thrown by `_query`/`_stream` on an empty SQL string. -/
def emptyQueryError : KError := { message := "The query is empty", code := none }

/-- The error transformation in the catch block of `_query`
(lines 116–139): prefix `SQLITE_CONSTRAINT: ` onto constraint messages
that lack it, rewrite `ERR_SQLITE_ERROR` to `SQLITE_ERROR` in the message
(one `String.prototype.replace` call), and normalize the error code. -/
def transformError (e : KError) : KError :=
  let m := e.message
  let m :=
    if jsIncludes m "constraint failed" && !(jsIncludes m "SQLITE_CONSTRAINT:")
    then "SQLITE_CONSTRAINT: " ++ m else m
  let m :=
    if jsIncludes m "ERR_SQLITE_ERROR"
    then jsReplace m "ERR_SQLITE_ERROR" "SQLITE_ERROR" else m
  { message := m,
    code := if e.code == some "ERR_SQLITE_ERROR" then some "SQLITE_ERROR" else e.code }

/-- Source `_query` (lines 51–146). Empty SQL throws; otherwise the bindings are
formatted and the statement dispatched on the branch condition:
row-returning queries use `all` (`get` wrapped into a 0/1-row list for
`first`) and post-process the rows; `insert`/`update` with a RETURNING
request use `all` and reconstruct a fallback context from the rows; every
other statement uses `run` and records `lastInsertRowid`/`changes`. A
driver throw is transformed by `transformError` and rethrown. -/
def _query (drv : Driver) (obj : QueryObj) : Except KError QueryObj :=
  if obj.sql = "" then .error emptyQueryError
  else
    let bindings := _formatBindings obj.bindings
    let exec : Except KError (DriverResp × Ctx) :=
      if isRowReturningBranch obj then
        if obj.method == some .first then
          match drv.get obj.sql bindings with
          | .error e => .error e
          | .ok r? =>
            let response : DriverResp :=
              .rows (match r? with | some r => [r] | none => [])
            .ok (_postProcessResponse response, Ctx.empty)
        else
          match drv.all obj.sql bindings with
          | .error e => .error e
          | .ok rs => .ok (_postProcessResponse (.rows rs), Ctx.empty)
      else if (obj.method == some .insert || obj.method == some .update) &&
              obj.returning.isSome then
        match drv.all obj.sql bindings with
        | .error e => .error e
        | .ok rs =>
            let rows := postRows rs
            let lastID : Value :=
              match rows with
              | [] => .int 0
              | firstRow :: _ =>
                if rowProp firstRow "rowid" == .undefined then .int 0
                else rowProp firstRow "rowid"
            let changes : Int :=
              if rows.length > 0 && obj.method == some .update
              then rows.length else 0
            .ok (.rows rows, { lastID := some lastID, changes := some changes })
      else
        match drv.run obj.sql bindings with
        | .error e => .error e
        | .ok result =>
          .ok (.result result,
               { lastID := some (.int result.lastInsertRowid),
                 changes := some result.changes })
    match exec with
    | .ok (resp, ctx) => .ok { obj with response := some resp, context := ctx }
    | .error err => .error (transformError err)

/-- Source `processResponse` (lines 226–264): dispatch on `obj.method` after the
optional `obj.output` hook, exactly as the switch statement reads. -/
def processResponse (obj : QueryObj) : Processed :=
  let ctx := obj.context
  match obj.output with
  | some f => f obj.response
  | none =>
    match obj.method with
    | some .select =>
      match obj.response with
      | some d => Processed.ofDriver d
      | none => .rows []
    | some .first =>
      match obj.response with
      | some (.rows (r :: _)) => .row r
      | _ => .undefined
    | some .pluck =>
      match obj.response with
      | some (.rows rs) =>
        .values (rs.map (fun row => rowProp row (obj.pluck.getD "undefined")))
      | some (.result _) => .tyError
      | none => .values []
    | some .insert =>
      if obj.returning.isSome then
        match obj.response with
        | some (.rows rs) => .rows rs
        | _ => .values [ctx.lastID.getD .undefined]
      else .values [ctx.lastID.getD .undefined]
    | some .update =>
      if obj.returning.isSome then
        match obj.response with
        | some (.rows rs) => .rows rs
        | _ => .num (ctx.changes.getD 0)
      else .num (ctx.changes.getD 0)
    | some .del => .num (ctx.changes.getD 0)
    | some .counter => .num (ctx.changes.getD 0)
    | some .raw =>
      match obj.response with
      | some d => Processed.ofDriver d
      | none => .rows []
    | some .columnInfo | none =>
      match obj.response with
      | some d => Processed.ofDriver d
      | none => .undefined

/-- An observable action on the stream sink passed to `_stream`. -/
inductive StreamEvent where
  | write : Row → StreamEvent
  | error : KError → StreamEvent
  | ended : StreamEvent
deriving DecidableEq, Repr

/-- Source `_stream` (lines 184–207): empty SQL throws synchronously; otherwise
run `_query`, write each row of an array response to the sink in order,
emit `error` on the sink if the query failed, and end the sink in every
case. The returned list is the sink's event trace. -/
def _stream (drv : Driver) (obj : QueryObj) : Except KError (List StreamEvent) :=
  if obj.sql = "" then .error emptyQueryError
  else
    .ok (match _query drv obj with
      | .ok res =>
        (match res.response with
         | some (.rows rs) => rs.map StreamEvent.write
         | _ => []) ++ [.ended]
      | .error e => [.error e, .ended])

/-- The fate of the promise `_stream` returns: `stream.on('error', reject)`
and `stream.on('end', resolve)` settle it at the first such event. -/
def promiseOutcome : List StreamEvent → Option (Except KError Unit)
  | [] => none
  | .write _ :: rest => promiseOutcome rest
  | .error e :: _ => some (.error e)
  | .ended :: _ => some (.ok ())

/-! ### Query executioner (`src/lib/execution/internal/query-executioner.js`) -/

/-- The character scan performed by `sql.replace(/\\?\?/g, cb)` in
`formatQuery` (lines 13–23): at each position the pattern matches either a
backslash directly followed by `?` (replaced by a literal `?`, no binding
consumed) or a bare `?` (replaced by the escaped binding at the running
index when one remains, left in place otherwise); unmatched characters are
copied. `esc` is `client._escapeBinding(value, {timeZone})`. -/
def formatQueryAux (esc : Value → String) : List Char → Nat → List Value → List Char
  | [], _, _ => []
  | [c], i, bs =>
    if c = '?' then
      if h : i < bs.length then (esc (bs.get ⟨i, h⟩)).data else ['?']
    else [c]
  | c :: c2 :: rest, i, bs =>
    if c = '\\' then
      if c2 = '?' then '?' :: formatQueryAux esc rest i bs
      else c :: formatQueryAux esc (c2 :: rest) i bs
    else if c = '?' then
      if h : i < bs.length then
        (esc (bs.get ⟨i, h⟩)).data ++ formatQueryAux esc (c2 :: rest) (i + 1) bs
      else '?' :: formatQueryAux esc (c2 :: rest) i bs
    else c :: formatQueryAux esc (c2 :: rest) i bs

/-- Source `formatQuery` (lines 8–24): inline escaped bindings into the
placeholder SQL. A null binding list is treated as `[]` (line 12). -/
def formatQuery (esc : Value → String) (sql : String)
    (bindings : Option (List Value)) : String :=
  ⟨formatQueryAux esc sql.data 0 (bindings.getD [])⟩

/-- Modelled from the spec sentence for C1 (spec §4.3, raw placeholder
rewriting), for comparison with `formatQuery`: scan the string left to
right; replace each unescaped `?` with the escaped form of the next
unconsumed binding, consuming exactly one binding per unescaped `?`;
replace each backslash-escaped `?` with a literal `?` without consuming a
binding; once bindings are exhausted leave every remaining unescaped `?`
in place unchanged. -/
def specFormatScan (esc : Value → String) : List Char → List Value → List Char
  | [], _ => []
  | [c], bs =>
    if c = '?' then
      match bs with
      | b :: _ => (esc b).data
      | [] => ['?']
    else [c]
  | c :: c2 :: rest, bs =>
    if c = '\\' then
      if c2 = '?' then '?' :: specFormatScan esc rest bs
      else c :: specFormatScan esc (c2 :: rest) bs
    else if c = '?' then
      match bs with
      | b :: bs2 => (esc b).data ++ specFormatScan esc (c2 :: rest) bs2
      | [] => '?' :: specFormatScan esc (c2 :: rest) []
    else c :: specFormatScan esc (c2 :: rest) bs

/-- The connection handle as the executioner sees it: its logging uid and
transaction id. -/
structure Connection where
  __knexUid : String
  __knexTxId : String
deriving DecidableEq, Repr

/-- The client configuration slice the executioner reads. -/
structure Config where
  compileSqlOnError : Option Bool
deriving DecidableEq, Repr

/-- The payload attached to a `query` / `query-error` event:
`Object.assign({ __knexUid, __knexTxId }, queryObject)`, keeping the query
object fields the claims are about. -/
structure EventPayload where
  __knexUid : String
  __knexTxId : String
  sql : String
  bindings : Option (List Value)
  method : Option Method

/-- An event emitted on the client. -/
inductive Emitted where
  | query : EventPayload → Emitted
  | queryError : KError → EventPayload → Emitted

/-- The client as the executioner uses it: `_escapeBinding`,
`prepBindings`, `positionBindings`, `config`, and `_query` (the dialect
implementation, abstract at this level). -/
structure EClient where
  escapeBinding : Value → String
  prepBindings : Option (List Value) → Option (List Value)
  positionBindings : String → String
  config : Option Config
  queryImpl : Connection → QueryObj → Except KError QueryObj

/-- Source `enrichQueryObject` (lines 26–39): run the client's
`prepBindings` and `positionBindings` over the query object and emit the
`query` event with the connection's `__knexUid`/`__knexTxId` merged in.
The string-shorthand normalization of line 27 is outside this model: the
argument is already a query object. -/
def enrichQueryObject (connection : Connection) (queryParam : QueryObj)
    (client : EClient) : QueryObj × List Emitted :=
  let queryObject : QueryObj :=
    { queryParam with
      bindings := client.prepBindings queryParam.bindings,
      sql := client.positionBindings queryParam.sql }
  (queryObject,
   [.query
      { __knexUid := connection.__knexUid, __knexTxId := connection.__knexTxId,
        sql := queryObject.sql, bindings := queryObject.bindings,
        method := queryObject.method }])

/-- Source `executeQuery` (lines 41–66): run `client._query`; on failure
decorate the error message with the rendered SQL (or the raw SQL when
`config.compileSqlOnError === false`), emit `query-error`, and rethrow.
Line 60 of the source assigns `connection.__knexUid` to the payload's
`__knexTxId` field; the model reproduces that assignment. -/
def executeQuery (connection : Connection) (queryObject : QueryObj)
    (client : EClient) : Except KError QueryObj × List Emitted :=
  match client.queryImpl connection queryObject with
  | .ok result => (.ok result, [])
  | .error err =>
    let err2 : KError :=
      if (match client.config with
          | some cfg => cfg.compileSqlOnError == some false
          | none => false) then
        { err with message := queryObject.sql ++ " - " ++ err.message }
      else
        { err with message :=
            formatQuery client.escapeBinding queryObject.sql queryObject.bindings
              ++ " - " ++ err.message }
    (.error err2,
     [.queryError err2
        { __knexUid := connection.__knexUid, __knexTxId := connection.__knexUid,
          sql := queryObject.sql, bindings := queryObject.bindings,
          method := queryObject.method }])

/-- Modelled from the spec sentence for C7 (spec §6, driver adapter
contract), for comparison with `_formatBindings`: coerce a typed value to
driver-native form — a `Date` to its numeric epoch timestamp, a boolean to
the number 0 or 1, every other value unchanged. -/
def coerceBindingSpec : Value → Value
  | .date ms => .int ms
  | .bool b => .int (if b then 1 else 0)
  | v => v

/-! ### Concrete instances used by witnesses and counterexamples -/

/-- A concrete escaper for witnesses: integers print bare, strings quoted. -/
def escW : Value → String
  | .int n => toString n
  | .str s => "'" ++ s ++ "'"
  | .bool b => if b then "true" else "false"
  | .date ms => toString ms
  | .null => "NULL"
  | .undefined => "undefined"

/-- A query object with the given sql, bindings, method and RETURNING
request, before execution. -/
def mkObj (sql : String) (bindings : Option (List Value)) (m : Option Method)
    (returning : Option (List String)) : QueryObj :=
  { sql := sql, bindings := bindings, method := m, returning := returning,
    pluck := none, response := none, context := Ctx.empty, output := none }

/-- A driver producing fixed results. -/
def mkDriver (rows : List Row) (r? : Option Row) (rr : RunResult) : Driver :=
  { all := fun _ _ => .ok rows,
    get := fun _ _ => .ok r?,
    run := fun _ _ => .ok rr }

/-- A driver whose every call throws `e`. -/
def throwingDriver (e : KError) : Driver :=
  { all := fun _ _ => .error e,
    get := fun _ _ => .error e,
    run := fun _ _ => .error e }

/-- An executioner client with the given config and `_query`
implementation, identity `prepBindings`/`positionBindings`, and the
concrete escaper. -/
def clientOf (cfg : Option Config)
    (q : Connection → QueryObj → Except KError QueryObj) : EClient :=
  { escapeBinding := escW, prepBindings := fun b => b,
    positionBindings := fun s => s, config := cfg, queryImpl := q }

/-- A connection whose uid and transaction id differ. -/
def connW : Connection := { __knexUid := "u1", __knexTxId := "t1" }

/-- A driver error whose message mentions `ERR_SQLITE_ERROR` twice. -/
def errDouble : KError :=
  { message := "ERR_SQLITE_ERROR one ERR_SQLITE_ERROR two", code := some "ERR_SQLITE_ERROR" }

/-- A driver error for a UNIQUE constraint violation as node:sqlite
reports it. -/
def errUnique : KError :=
  { message := "UNIQUE constraint failed: t.a", code := some "ERR_SQLITE_ERROR" }

/-- A client whose `_query` always rejects with message `boom`. -/
def clientFail : EClient :=
  clientOf none (fun _ _ => .error { message := "boom", code := none })

/-- A client like `clientFail` but configured with
`compileSqlOnError = false`. -/
def clientFailRawSql : EClient :=
  clientOf (some { compileSqlOnError := some false })
    (fun _ _ => .error { message := "boom", code := none })

end Knex

namespace Knex

/-! ### Helper lemmas -/

/-- The shallow row copy of `_postProcessResponse` preserves every row. -/
theorem postRows_id (rs : List Row) : postRows rs = rs := by
  simp [postRows]

/-- A sink trace of writes followed by `ended` settles the stream promise
by resolution. -/
theorem promiseOutcome_writes_ended (rs : List Row) :
    promiseOutcome (rs.map StreamEvent.write ++ [.ended]) = some (.ok ()) := by
  induction rs with
  | nil => rfl
  | cons r rs ih => simpa [promiseOutcome] using ih

/-- The index-based binding consumption of `formatQueryAux` agrees with
the spec-side scan that consumes bindings from the front of a list. -/
theorem formatQueryAux_eq_spec (esc : Value → String) (cs : List Char) (i : Nat)
    (bs : List Value) (hle : i ≤ bs.length) :
    formatQueryAux esc cs i bs = specFormatScan esc cs (bs.drop i) := by
  revert hle
  induction cs, i, bs using formatQueryAux.induct esc with
  | case1 i bs => intro _; simp [formatQueryAux, specFormatScan]
  | case2 i bs h =>
    intro _
    rw [List.drop_eq_getElem_cons h]
    simp [formatQueryAux, specFormatScan, h]
  | case3 i bs h =>
    intro hle
    have hi : i = bs.length := Nat.le_antisymm hle (Nat.not_lt.mp h)
    subst hi
    simp [formatQueryAux, specFormatScan, h, List.drop_length]
  | case4 c i bs hc => intro _; simp [formatQueryAux, specFormatScan, hc]
  | case5 rest i bs ih =>
    intro hle; simp [formatQueryAux, specFormatScan, ih hle]
  | case6 c2 rest i bs hc2 ih =>
    intro hle; simp [formatQueryAux, specFormatScan, hc2, ih hle]
  | case7 c2 rest i bs h hne ih =>
    intro hle
    rw [List.drop_eq_getElem_cons h]
    simp [formatQueryAux, specFormatScan, h, ih h]
  | case8 c2 rest i bs h hne ih =>
    intro hle
    have hi : i = bs.length := Nat.le_antisymm hle (Nat.not_lt.mp h)
    subst hi
    simp [formatQueryAux, specFormatScan, h, List.drop_length, ih le_rfl]
  | case9 c c2 rest i bs hc hq ih =>
    intro hle; simp [formatQueryAux, specFormatScan, hc, hq, ih hle]

/-! ### Claim theorems -/

/-- C1: for every SQL string and binding list, `formatQuery` performs the
left-to-right scan the spec describes — each unescaped `?` is replaced by
the escaped form of the next unconsumed binding (one binding per marker),
each backslash-escaped `?` becomes a literal `?` without consuming a
binding, and once bindings are exhausted every remaining unescaped `?` is
left in place. -/
theorem formatQuery_scan_correct (esc : Value → String) (sql : String)
    (bindings : Option (List Value)) :
    formatQuery esc sql bindings =
      ⟨specFormatScan esc sql.data (bindings.getD [])⟩ := by
  unfold formatQuery
  rw [formatQueryAux_eq_spec esc sql.data 0 (bindings.getD []) (Nat.zero_le _),
    List.drop_zero]

/-- C2: when the driver query fails, `executeQuery` rethrows the error
with its message decorated by the rendered SQL (bindings escaped and
inlined by `formatQuery`) followed by ` - ` and the original message; when
the client configuration has `compileSqlOnError === false`, the raw
placeholder SQL is prepended instead. -/
theorem executeQuery_error_decoration (connection : Connection)
    (queryObject : QueryObj) (client : EClient) (err : KError)
    (hq : client.queryImpl connection queryObject = .error err) :
    (∀ cfg, client.config = some cfg → cfg.compileSqlOnError = some false →
      (executeQuery connection queryObject client).1 =
        .error { err with
          message := queryObject.sql ++ " - " ++ err.message }) ∧
    ((∀ cfg, client.config = some cfg → ¬cfg.compileSqlOnError = some false) →
      (executeQuery connection queryObject client).1 =
        .error { err with
          message := formatQuery client.escapeBinding queryObject.sql
            queryObject.bindings ++ " - " ++ err.message }) := by
  constructor
  · intro cfg hcfg hfalse
    simp [executeQuery, hq, hcfg, hfalse]
  · intro hnot
    cases hcfg : client.config with
    | none => simp [executeQuery, hq, hcfg]
    | some cfg =>
      have hne := hnot cfg hcfg
      simp [executeQuery, hq, hcfg, hne]

/-- Witness for C2: a failing query with one binding, once under
`compileSqlOnError = false` (raw SQL prepended) and once under the default
configuration (rendered SQL prepended). -/
theorem executeQuery_error_decoration_witness :
    (executeQuery connW (mkObj "insert into t values (?)" (some [.int 5])
        (some .insert) none) clientFailRawSql).1 =
      .error { message := "insert into t values (?) - boom", code := none } ∧
    (executeQuery connW (mkObj "insert into t values (?)" (some [.int 5])
        (some .insert) none) clientFail).1 =
      .error { message := "insert into t values (5) - boom", code := none } := by
  constructor
  · have h := (executeQuery_error_decoration connW
      (mkObj "insert into t values (?)" (some [.int 5]) (some .insert) none)
      clientFailRawSql { message := "boom", code := none } rfl).1
      { compileSqlOnError := some false } rfl rfl
    exact h.trans rfl
  · have h := (executeQuery_error_decoration connW
      (mkObj "insert into t values (?)" (some [.int 5]) (some .insert) none)
      clientFail { message := "boom", code := none } rfl).2
      (fun cfg hcfg => by simp [clientFail, clientOf] at hcfg)
    exact h.trans rfl

/-- C3 (code bug): the `query` event payload carries the connection's
`__knexTxId`, but the `query-error` payload's `__knexTxId` field is
assigned `connection.__knexUid` (query-executioner.js line 60), so on a
connection whose uid (`u1`) and transaction id (`t1`) differ the
`query-error` payload's transaction id is `u1`, not the connection's
`t1`, and the claim fails on the code. -/
theorem queryError_payload_txid_bug :
    (∃ p, (enrichQueryObject connW (mkObj "select 1" none (some .select) none)
        clientFail).2 = [.query p] ∧ p.__knexTxId = connW.__knexTxId) ∧
    (∃ e p, (executeQuery connW (mkObj "select 1" none (some .select) none)
        clientFail).2 = [.queryError e p] ∧
      p.__knexUid = connW.__knexUid ∧ p.__knexTxId = "u1" ∧
      connW.__knexTxId = "t1" ∧ ¬p.__knexTxId = connW.__knexTxId) := by
  exact ⟨⟨_, rfl, rfl⟩, ⟨_, _, rfl, rfl, rfl, rfl, by decide⟩⟩

/-- C4: for an insert through the node-sqlite dialect, `processResponse`
returns the one-element list with the `lastInsertRowid` captured by
`_query` when no RETURNING columns were requested, and returns the
driver's row list when RETURNING was requested and the driver produced
one. -/
theorem insert_processResponse_semantics (drv : Driver) (obj : QueryObj)
    (hm : obj.method = some .insert) (hout : obj.output = none)
    (hsql : obj.sql ≠ "") :
    (∀ rr : RunResult, obj.returning = none →
      drv.run obj.sql (_formatBindings obj.bindings) = .ok rr →
      (_query drv obj).map processResponse =
        .ok (.values [.int rr.lastInsertRowid])) ∧
    (∀ (rs : List Row) (ret : List String), obj.returning = some ret →
      drv.all obj.sql (_formatBindings obj.bindings) = .ok rs →
      (_query drv obj).map (fun res => res.response) = .ok (some (.rows rs)) ∧
      (_query drv obj).map processResponse = .ok (.rows rs)) := by
  have hbr : isRowReturningBranch obj = false := by
    unfold isRowReturningBranch; rw [hm]; rfl
  constructor
  · intro rr hret hrun
    unfold _query
    rw [if_neg hsql, hbr]
    simp [hm, hret, hrun, processResponse, hout, Except.map]
  · intro rs ret hret hall
    unfold _query
    rw [if_neg hsql, hbr]
    simp [hm, hret, hall, processResponse, hout, _postProcessResponse,
      postRows_id, Except.map]

/-- Witness for C4: a concrete insert without RETURNING yields
`[lastInsertRowid]`; the same insert with RETURNING yields the driver's
row list. -/
theorem insert_processResponse_semantics_witness :
    (_query (mkDriver [[("id", .int 9)]] none { lastInsertRowid := 9, changes := 1 })
        (mkObj "insert into t (a) values (?)" (some [.int 5]) (some .insert) none)).map
      processResponse = .ok (.values [.int 9]) ∧
    (_query (mkDriver [[("id", .int 9)]] none { lastInsertRowid := 9, changes := 1 })
        (mkObj "insert into t (a) values (?) returning id" (some [.int 5])
          (some .insert) (some ["id"]))).map
      processResponse = .ok (.rows [[("id", .int 9)]]) := by
  constructor
  · exact (insert_processResponse_semantics
      (mkDriver [[("id", .int 9)]] none { lastInsertRowid := 9, changes := 1 })
      (mkObj "insert into t (a) values (?)" (some [.int 5]) (some .insert) none)
      rfl rfl (by decide)).1 { lastInsertRowid := 9, changes := 1 } rfl rfl
  · exact ((insert_processResponse_semantics
      (mkDriver [[("id", .int 9)]] none { lastInsertRowid := 9, changes := 1 })
      (mkObj "insert into t (a) values (?) returning id" (some [.int 5])
        (some .insert) (some ["id"]))
      rfl rfl (by decide)).2 [[("id", .int 9)]] ["id"] rfl rfl).2

/-- C5: with method `first`, `processResponse` yields the first row of a
non-empty response and `undefined` (the absent sentinel) otherwise, and
`_query` fetches at most one row (the driver's single-row `get`, wrapped
into a list of length at most one). -/
theorem first_method_semantics :
    (∀ obj : QueryObj, obj.output = none → obj.method = some .first →
      processResponse obj = (match obj.response with
        | some (.rows (r :: _)) => .row r
        | _ => .undefined)) ∧
    (∀ (drv : Driver) (obj : QueryObj) (r? : Option Row),
      obj.method = some .first → obj.sql ≠ "" →
      drv.get obj.sql (_formatBindings obj.bindings) = .ok r? →
      (_query drv obj).map (fun res => res.response) =
        .ok (some (.rows (match r? with | some r => [r] | none => []))) ∧
      (match r? with | some r => [r] | none => ([] : List Row)).length ≤ 1) := by
  constructor
  · intro obj hout hm
    rcases hresp : obj.response with _ | d
    · simp [processResponse, hout, hm, hresp]
    · rcases d with rs | r
      · rcases rs with _ | ⟨r, rest⟩ <;> simp [processResponse, hout, hm, hresp]
      · simp [processResponse, hout, hm, hresp]
  · intro drv obj r? hm hsql hget
    have hbr : isRowReturningBranch obj = true := by
      unfold isRowReturningBranch; rw [hm]; rfl
    constructor
    · unfold _query
      rw [if_neg hsql, hbr]
      rcases r? with _ | r <;>
        simp [hm, hget, _postProcessResponse, postRows_id, Except.map]
    · rcases r? with _ | r <;> simp

/-- Witness for C5: a concrete `first` query over a one-row and over an
empty result. -/
theorem first_method_semantics_witness :
    processResponse { mkObj "select a from t" none (some .first) none with
        response := some (.rows [[("a", .int 1)], [("a", .int 2)]]) } =
      .row [("a", .int 1)] ∧
    processResponse { mkObj "select a from t" none (some .first) none with
        response := some (.rows []) } = .undefined ∧
    (_query (mkDriver [] (some [("a", .int 1)]) { lastInsertRowid := 0, changes := 0 })
        (mkObj "select a from t" none (some .first) none)).map
      (fun res => res.response) = .ok (some (.rows [[("a", .int 1)]])) := by
  refine ⟨?_, ?_, ?_⟩
  · exact (first_method_semantics.1 _ rfl rfl).trans rfl
  · exact (first_method_semantics.1 _ rfl rfl).trans rfl
  · exact ((first_method_semantics.2
      (mkDriver [] (some [("a", .int 1)]) { lastInsertRowid := 0, changes := 0 })
      (mkObj "select a from t" none (some .first) none)
      (some [("a", .int 1)]) rfl (by decide) rfl).1).trans rfl

/-- C6 counterexample: with method `raw` and an absent driver response,
`processResponse` returns the empty row list, which is not the absent
payload returned unchanged. -/
theorem raw_absent_response_counterexample :
    processResponse (mkObj "select 1" none (some .raw) none) = .rows [] ∧
    ¬processResponse (mkObj "select 1" none (some .raw) none) = .undefined := by
  exact ⟨rfl, by decide⟩

/-- C6 amended: with method `raw` (and no output hook), `processResponse`
returns the driver's native payload unchanged whenever one is present —
the row list for row-returning statements, the driver result object
otherwise — and returns the empty row list when the response is absent. -/
theorem raw_processResponse_semantics (obj : QueryObj)
    (hout : obj.output = none) (hm : obj.method = some .raw) :
    processResponse obj = (match obj.response with
      | some (.rows rs) => .rows rs
      | some (.result r) => .result r
      | none => .rows []) := by
  rcases hresp : obj.response with _ | d
  · simp [processResponse, hout, hm, hresp]
  · rcases d with rs | r <;>
      simp [processResponse, hout, hm, hresp, Processed.ofDriver]

/-- Witness for C6: raw queries with a row-list payload, a run-result
payload, and an absent payload. -/
theorem raw_processResponse_semantics_witness :
    processResponse { mkObj "select 1" none (some .raw) none with
        response := some (.rows [[("a", .int 1)]]) } = .rows [[("a", .int 1)]] ∧
    processResponse { mkObj "vacuum" none (some .raw) none with
        response := some (.result { lastInsertRowid := 7, changes := 2 }) } =
      .result { lastInsertRowid := 7, changes := 2 } ∧
    processResponse (mkObj "select 1" none (some .raw) none) = .rows [] := by
  refine ⟨?_, ?_, ?_⟩
  · exact (raw_processResponse_semantics _ rfl rfl).trans rfl
  · exact (raw_processResponse_semantics _ rfl rfl).trans rfl
  · exact (raw_processResponse_semantics _ rfl rfl).trans rfl

/-- C7: `_formatBindings` maps each `Date` to its numeric epoch
(`valueOf`), each boolean to 0 or 1, leaves every other value unchanged
preserving order and length, and maps an absent binding list to `[]`. -/
theorem formatBindings_semantics :
    _formatBindings none = [] ∧
    (∀ bs : List Value, _formatBindings (some bs) = bs.map coerceBindingSpec) ∧
    (∀ bs : List Value, (_formatBindings (some bs)).length = bs.length) := by
  refine ⟨rfl, fun bs => ?_, fun bs => by simp [_formatBindings]⟩
  induction bs with
  | nil => rfl
  | cons v vs ih => cases v <;> simp_all [_formatBindings, coerceBindingSpec]

/-- C8 counterexample: a driver error whose message contains
`ERR_SQLITE_ERROR` twice is rethrown with only the first occurrence
replaced — an occurrence survives in the rethrown message, so "every
occurrence is replaced" fails. -/
theorem query_error_replace_first_counterexample :
    _query (throwingDriver errDouble)
      (mkObj "insert into t values (1)" none (some .insert) none) =
      .error
        { message := "SQLITE_ERROR one ERR_SQLITE_ERROR two", code := some "SQLITE_ERROR" } ∧
    jsIncludes "SQLITE_ERROR one ERR_SQLITE_ERROR two" "ERR_SQLITE_ERROR" = true := by
  exact ⟨rfl, rfl⟩

/-- C8 amended: a driver throw during `_query` is always rethrown (never
swallowed); its message is prefixed with `SQLITE_CONSTRAINT: ` when it
mentions `constraint failed` without `SQLITE_CONSTRAINT:`, the first
occurrence of `ERR_SQLITE_ERROR` in the message is replaced by
`SQLITE_ERROR` (later occurrences are left, as JavaScript's one-shot
string replace does), and an error code of `ERR_SQLITE_ERROR` is
rewritten to `SQLITE_ERROR`. -/
theorem query_driver_error_rethrown (drv : Driver) (obj : QueryObj) (e : KError)
    (hsql : obj.sql ≠ "")
    (hall : drv.all obj.sql (_formatBindings obj.bindings) = .error e)
    (hget : drv.get obj.sql (_formatBindings obj.bindings) = .error e)
    (hrun : drv.run obj.sql (_formatBindings obj.bindings) = .error e) :
    _query drv obj = .error
      { message :=
          (let m := if jsIncludes e.message "constraint failed" &&
                !jsIncludes e.message "SQLITE_CONSTRAINT:"
              then "SQLITE_CONSTRAINT: " ++ e.message else e.message
           if jsIncludes m "ERR_SQLITE_ERROR"
             then jsReplace m "ERR_SQLITE_ERROR" "SQLITE_ERROR" else m),
        code := if e.code == some "ERR_SQLITE_ERROR"
          then some "SQLITE_ERROR" else e.code } := by
  suffices h : _query drv obj = .error (transformError e) by
    rw [h]; exact rfl
  unfold _query
  rw [if_neg hsql]
  simp only [hall, hget, hrun]
  split_ifs <;> rfl

/-- Witness for C8: a UNIQUE-constraint throw with code
`ERR_SQLITE_ERROR` is rethrown with the `SQLITE_CONSTRAINT: ` message
prefix and code `SQLITE_ERROR`. -/
theorem query_driver_error_rethrown_witness :
    _query (throwingDriver errUnique)
      (mkObj "insert into t values (1)" none (some .insert) none) =
      .error
        { message := "SQLITE_CONSTRAINT: UNIQUE constraint failed: t.a",
          code := some "SQLITE_ERROR" } := by
  exact (query_driver_error_rethrown (throwingDriver errUnique)
    (mkObj "insert into t values (1)" none (some .insert) none)
    errUnique (by decide) rfl rfl rfl).trans rfl

/-- C9: `_stream` runs the full query and writes every row of a row-list
response to the sink in response order before ending it; on query failure
it emits an error on the sink — settling the stream promise by rejection —
and still ends the sink. -/
theorem stream_semantics (drv : Driver) (obj : QueryObj) (hsql : obj.sql ≠ "") :
    (∀ res rs, _query drv obj = .ok res → res.response = some (.rows rs) →
      _stream drv obj = .ok (rs.map StreamEvent.write ++ [.ended]) ∧
      promiseOutcome (rs.map StreamEvent.write ++ [.ended]) = some (.ok ())) ∧
    (∀ e, _query drv obj = .error e →
      _stream drv obj = .ok [.error e, .ended] ∧
      promiseOutcome [.error e, .ended] = some (.error e)) := by
  constructor
  · intro res rs hq hresp
    refine ⟨?_, promiseOutcome_writes_ended rs⟩
    unfold _stream
    rw [if_neg hsql, hq]
    simp [hresp]
  · intro e hq
    unfold _stream
    rw [if_neg hsql, hq]
    simp [promiseOutcome]

/-- Witness for C9: a two-row select streams two writes then `ended`; a
throwing driver produces an `error` event followed by `ended`. -/
theorem stream_semantics_witness :
    _stream (mkDriver [[("a", .int 1)], [("a", .int 2)]] none
        { lastInsertRowid := 0, changes := 0 })
      (mkObj "select a from t" none (some .select) none) =
      .ok [.write [("a", .int 1)], .write [("a", .int 2)], .ended] ∧
    _stream (throwingDriver { message := "boom", code := none })
      (mkObj "select a from t" none (some .select) none) =
      .ok [.error { message := "boom", code := none }, .ended] := by
  constructor
  · exact ((stream_semantics (mkDriver [[("a", .int 1)], [("a", .int 2)]] none
      { lastInsertRowid := 0, changes := 0 })
      (mkObj "select a from t" none (some .select) none) (by decide)).1
      _ [[("a", .int 1)], [("a", .int 2)]] rfl rfl).1.trans rfl
  · exact ((stream_semantics (throwingDriver { message := "boom", code := none })
      (mkObj "select a from t" none (some .select) none) (by decide)).2
      { message := "boom", code := none } rfl).1

/-- C10: with method `raw` (or no method), `_query` executes the
statement as row-returning — response a row list — exactly when the
trimmed SQL starts case-insensitively with `select` or `pragma`; every
other such statement runs via prepare + run and its response is the
driver result object, so e.g. a raw `WITH ... SELECT` query does not
return its rows. -/
theorem raw_branch_condition (drv : Driver) (obj : QueryObj)
    (hm : obj.method = some .raw ∨ obj.method = none) (hsql : obj.sql ≠ "")
    (rs : List Row) (rr : RunResult)
    (hall : drv.all obj.sql (_formatBindings obj.bindings) = .ok rs)
    (hrun : drv.run obj.sql (_formatBindings obj.bindings) = .ok rr) :
    ((∃ rows, (_query drv obj).map (fun res => res.response) =
        .ok (some (.rows rows))) ↔
      ("select".data.isPrefixOf (trimLower obj.sql) ||
       "pragma".data.isPrefixOf (trimLower obj.sql)) = true) ∧
    (("select".data.isPrefixOf (trimLower obj.sql) ||
      "pragma".data.isPrefixOf (trimLower obj.sql)) = true →
      (_query drv obj).map (fun res => res.response) = .ok (some (.rows rs))) ∧
    (("select".data.isPrefixOf (trimLower obj.sql) ||
      "pragma".data.isPrefixOf (trimLower obj.sql)) = false →
      (_query drv obj).map (fun res => res.response) = .ok (some (.result rr))) := by
  have hbr : isRowReturningBranch obj =
      ("select".data.isPrefixOf (trimLower obj.sql) ||
       "pragma".data.isPrefixOf (trimLower obj.sql)) := by
    rcases hm with hm | hm <;> (unfold isRowReturningBranch; rw [hm]) <;> rfl
  have hfirst : (obj.method == some Method.first) = false := by
    rcases hm with hm | hm <;> rw [hm] <;> rfl
  have hins : ((obj.method == some Method.insert ||
      obj.method == some Method.update) && obj.returning.isSome) = false := by
    rcases hm with hm | hm <;> rw [hm] <;> rfl
  cases hx : ("select".data.isPrefixOf (trimLower obj.sql) ||
      "pragma".data.isPrefixOf (trimLower obj.sql)) with
  | true =>
    have hq : (_query drv obj).map (fun res => res.response) =
        .ok (some (.rows rs)) := by
      unfold _query
      rw [if_neg hsql, hbr, hx, hfirst]
      simp [hall, _postProcessResponse, postRows_id, Except.map]
    exact ⟨⟨fun _ => rfl, fun _ => ⟨rs, hq⟩⟩, fun _ => hq,
      fun h => absurd h (by simp)⟩
  | false =>
    have hq : (_query drv obj).map (fun res => res.response) =
        .ok (some (.result rr)) := by
      unfold _query
      rw [if_neg hsql, hbr, hx, hins]
      simp [hrun, Except.map]
    refine ⟨⟨fun hex => ?_, fun h => absurd h (by simp)⟩,
      fun h => absurd h (by simp), fun _ => hq⟩
    obtain ⟨rows, hrows⟩ := hex
    rw [hq] at hrows
    simp at hrows

/-- Witness for C10: a raw `WITH ... SELECT` query is executed via run and
yields the driver result object, while a raw `SELECT` returns its rows. -/
theorem raw_branch_condition_witness :
    (_query (mkDriver [[("a", .int 1)]] none { lastInsertRowid := 42, changes := 3 })
        (mkObj "WITH x AS (SELECT 1) SELECT * FROM x" none (some .raw) none)).map
      (fun res => res.response) =
      .ok (some (.result { lastInsertRowid := 42, changes := 3 })) ∧
    (_query (mkDriver [[("a", .int 1)]] none { lastInsertRowid := 42, changes := 3 })
        (mkObj "SELECT 1" none (some .raw) none)).map
      (fun res => res.response) = .ok (some (.rows [[("a", .int 1)]])) := by
  constructor
  · exact (raw_branch_condition
      (mkDriver [[("a", .int 1)]] none { lastInsertRowid := 42, changes := 3 })
      (mkObj "WITH x AS (SELECT 1) SELECT * FROM x" none (some .raw) none)
      (Or.inl rfl) (by decide) [[("a", .int 1)]]
      { lastInsertRowid := 42, changes := 3 } rfl rfl).2.2 (by decide)
  · exact (raw_branch_condition
      (mkDriver [[("a", .int 1)]] none { lastInsertRowid := 42, changes := 3 })
      (mkObj "SELECT 1" none (some .raw) none)
      (Or.inl rfl) (by decide) [[("a", .int 1)]]
      { lastInsertRowid := 42, changes := 3 } rfl rfl).2.1 (by decide)

end Knex
